import Mathlib

/-!
Shallow embedding of the windowed dispatch engine in src/src/lib/dispatcher.cc
(queryperfpp).  Pure functions model the member functions of
Dispatcher::DispatcherImpl; the mutable object state is the structure DState,
threaded explicitly.  The DNS transaction identifier type qid_t is a 16-bit
unsigned integer, modelled as Nat with arithmetic reduced mod 65536 at the
points where the C++ code performs wrapping increments.  Calls into the
transport substrate (socket send, event-loop stop) are recorded as observable
ghost fields (sent_log, stop_requested) of the state.
-/

/-- Modelled from the spec: the default configuration constants
(DEFAULT_WINDOW, DEFAULT_PORT, DEFAULT_DURATION, DEFAULT_QUERY_TIMEOUT) are
declared in dispatcher.h, which is not part of the given sources; the spec
only says they exist as immutable defaults.  Their concrete values are
immaterial to every claim below. -/
def DEFAULT_WINDOW : Nat := 20

/-- Modelled from the spec: default server port (declared in dispatcher.h). -/
def DEFAULT_PORT : Nat := 53

/-- Modelled from the spec: default test duration in seconds (dispatcher.h). -/
def DEFAULT_DURATION : Nat := 30

/-- Modelled from the spec: default per-query timeout in seconds
(dispatcher.h). -/
def DEFAULT_QUERY_TIMEOUT : Nat := 5

/-- Default server address; defined in dispatcher.cc line 261. -/
def DEFAULT_SERVER : String := "::1"

/-- One QueryEvent (exchange slot, dispatcher.cc lines 48-81): it owns one
query context for its whole life (the context only echoes back the qid it is
asked to serialize, so it is not modelled as data), the identifier currently
in flight (qid_, a 16-bit value), and one timer.  The timer is modelled by the
duration it was last armed with (none = created but never started). -/
structure Slot where
  qid : Nat
  timer : Option Nat
deriving DecidableEq, Repr

/-- QueryEvent::start (dispatcher.cc lines 62-67): assign the identifier,
arm the timer for the given timeout, and serialize the request via the owned
query context.  The wire data is modelled by the identifier under which it
was serialized (ctx_ serializes for exactly that qid). -/
def Slot.start (sl : Slot) (q : Nat) (timeout : Nat) : Slot × Nat :=
  ({ sl with qid := q, timer := some timeout }, q)

/-- QueryEvent::matchResponse (dispatcher.cc line 69): pure comparison of the
stored identifier with the one extracted from a response. -/
def Slot.matchResponse (sl : Slot) (q : Nat) : Bool :=
  sl.qid == q

/-- The state of Dispatcher::DispatcherImpl (dispatcher.cc lines 87-170),
plus the end_time_ member of the outer Dispatcher and two ghost observables
of substrate calls: sent_log records the identifier of every datagram pushed
through udp_socket_->send, and stop_requested records whether
msg_mgr_->stop() has been invoked.  start_time_ and end_time_ are
boost::posix_time::ptime values whose default construction is the special
not_a_date_time value; they are modelled as Option Nat with none standing
for is_special(). -/
structure DState where
  keep_sending : Bool
  window : Nat
  qid : Nat
  queries_sent : Nat
  queries_completed : Nat
  server_address : String
  server_port : Nat
  test_duration : Nat
  query_timeout : Nat
  outstanding : List Slot
  start_time : Option Nat
  end_time : Option Nat
  stop_requested : Bool
  sent_log : List Nat
deriving DecidableEq, Repr

/-- DispatcherImpl::initParams (dispatcher.cc lines 110-120) applied to a
freshly constructed implementation object: empty window, unset timestamps,
no substrate interaction yet. -/
def initState : DState :=
  { keep_sending := true
    window := DEFAULT_WINDOW
    qid := 0
    queries_sent := 0
    queries_completed := 0
    server_address := DEFAULT_SERVER
    server_port := DEFAULT_PORT
    test_duration := DEFAULT_DURATION
    query_timeout := DEFAULT_QUERY_TIMEOUT
    outstanding := []
    start_time := none
    end_time := none
    stop_requested := false
    sent_log := [] }

/-- The std::find_if scan over the outstanding list (dispatcher.cc lines
225-227): index of the first slot whose current identifier equals the given
one, none if there is no such slot. -/
def findMatch (q : Nat) : List Slot → Option Nat
  | [] => none
  | sl :: rest =>
      if sl.matchResponse q then some 0
      else (findMatch q rest).map (fun i => i + 1)

/-- The window reordering performed by dispatcher.cc line 243,
outstanding_.splice(qev_it, outstanding_, outstanding_.end()), where m is the
position of the matched slot.  The call passes end() as the iterator of the
element to transfer, which the C++ standard requires to be a dereferenceable
iterator, so the call as written has no defined meaning; the intent recorded
in the comment above it (move the matched slot to the back) would have been
splice(outstanding_.end(), outstanding_, qev_it).  We model the de-facto
behaviour of the mainstream implementations (libstdc++ and libc++): both
first test whether the insertion position equals the element or its
successor, so for m = 0 (position = begin() = successor of end() in the
circular node ring) the call is a no-op, and otherwise the sentinel node is
hooked before the matched node, which rotates the traversal order so that
the matched slot becomes the first element.  In both cases the resulting
order is the left rotation of the list by m. -/
def spliceSwappedArgs (l : List Slot) (m : Nat) : List Slot :=
  l.drop m ++ l.take m

/-- DispatcherImpl::restartQuery (dispatcher.cc lines 222-253).  Scan for the
first matching slot; if none, do nothing (the mismatch recording is an empty
TODO).  If found: count a completion when a response is present; then, if
keep_sending_, restart the slot under the current send counter (assign,
rearm, serialize), send it, bump queries_sent_, bump the wrapping 16-bit
counter qid_, and perform the splice; otherwise erase the slot and request
the event loop to stop when the window has become empty. -/
def restartQuery (q : Nat) (present : Bool) (s : DState) : DState :=
  match findMatch q s.outstanding with
  | none => s
  | some m =>
      let completed :=
        if present then s.queries_completed + 1 else s.queries_completed
      if s.keep_sending then
        let started :=
          Slot.start (s.outstanding.getD m { qid := 0, timer := none })
            s.qid s.query_timeout
        let rearmed := s.outstanding.set m started.1
        { s with
            queries_completed := completed
            outstanding := spliceSwappedArgs rearmed m
            sent_log := s.sent_log ++ [started.2]
            queries_sent := s.queries_sent + 1
            qid := (s.qid + 1) % 65536 }
      else
        let remaining := s.outstanding.eraseIdx m
        { s with
            queries_completed := completed
            outstanding := remaining
            stop_requested := s.stop_requested || remaining.isEmpty }

/-- The exception raised by isc::dns::Message::parseHeader when the payload
is shorter than the 12-byte DNS header. -/
inductive ParseError where
  | headerTooShort
deriving DecidableEq, Repr

/-- DispatcherImpl::responseCallback (dispatcher.cc lines 209-220): parse the
header of the received datagram to extract its identifier (the first two
bytes, big endian) and hand it to restartQuery with a response present.  The
parse throws when the payload cannot hold a full header, and the source
leaves that exception uncaught (the TODO on line 217), so the model returns
it as an error that propagates out of the callback. -/
def responseCallback (data : List Nat) (s : DState) : Except ParseError DState :=
  if data.length < 12 then Except.error ParseError.headerTooShort
  else Except.ok (restartQuery (data.getD 0 0 * 256 + data.getD 1 0) true s)

/-- DispatcherImpl::sessionTimerCallback (dispatcher.cc lines 133-135):
disable further sending. -/
def sessionTimerCallback (s : DState) : DState :=
  { s with keep_sending := false }

/-- The initial dispatch loop of DispatcherImpl::run (dispatcher.cc lines
198-203): walk the outstanding list, restarting each slot under the current
send counter, sending it, and bumping queries-sent and the wrapping 16-bit
counter.  Returns the restarted slots, the final counter, and the
identifiers sent, in order. -/
def sendLoop (timeout : Nat) : List Slot → Nat → List Slot × Nat × List Nat
  | [], q => ([], q, [])
  | sl :: rest, q =>
      let started := Slot.start sl q timeout
      let r := sendLoop timeout rest ((q + 1) % 65536)
      (started.1 :: r.1, r.2.1, started.2 :: r.2.2)

/-- DispatcherImpl::run (dispatcher.cc lines 172-207): allocate the shared
socket and session timer, arm the session timer (substrate interactions not
further modelled), push window_ fresh slots with qid 0 onto the outstanding
list, record the start time t, then dispatch one query per outstanding slot
and enter the event loop.  queries_sent_ grows by one per dispatched
query. -/
def runImpl (t : Nat) (s : DState) : DState :=
  let slots := s.outstanding ++ List.replicate s.window { qid := 0, timer := none }
  let r := sendLoop s.query_timeout slots s.qid
  { s with
      outstanding := r.1
      qid := r.2.1
      queries_sent := s.queries_sent + slots.length
      sent_log := s.sent_log ++ r.2.2
      start_time := some t }

/-- The three kinds of events the message manager can deliver to the
dispatcher once the loop is running: a datagram arriving on the shared
socket, a per-exchange timer firing (carrying the current slot
identifier and no response), and the session timer firing. -/
inductive DEvent where
  | response (data : List Nat)
  | timeout (q : Nat)
  | session

/-- Dispatch of one event to the corresponding callback.  A response whose
header fails to parse leaves the dispatcher state unchanged (the exception
is raised before restartQuery runs; it then propagates, which is the
subject of the malformed-payload claim). -/
def step (e : DEvent) (s : DState) : DState :=
  match e with
  | DEvent.response data =>
      match responseCallback data s with
      | Except.ok s2 => s2
      | Except.error _ => s
  | DEvent.timeout q => restartQuery q false s
  | DEvent.session => sessionTimerCallback s

/-- The event loop: deliver a sequence of events in order. -/
def stepAll (evs : List DEvent) (s : DState) : DState :=
  evs.foldl (fun s e => step e s) s

/-- The outer Dispatcher::run (dispatcher.cc lines 272-277): run the
implementation (recording start time t), let the event loop deliver its
events, and record the end time te once msg_mgr_->run() has returned. -/
def dispatcherRun (t te : Nat) (evs : List DEvent) (s : DState) : DState :=
  let s1 := stepAll evs (runImpl t s)
  { s1 with end_time := some te }

/-- The exception type DispatcherError thrown by the configuration
setters. -/
structure DispatcherError where
  msg : String
deriving DecidableEq, Repr

/-- Dispatcher::setServerAddress (dispatcher.cc lines 284-290): throw if the
start time has been set (is no longer the special not_a_date_time value),
otherwise update the address.  The thrown error is returned alongside the
unchanged state. -/
def setServerAddress (address : String) (s : DState) :
    Option DispatcherError × DState :=
  if s.start_time.isSome then
    (some { msg := "server address cannot be reset after run()" }, s)
  else
    (none, { s with server_address := address })

/-- Dispatcher::setServerPort (dispatcher.cc lines 297-303). -/
def setServerPort (port : Nat) (s : DState) : Option DispatcherError × DState :=
  if s.start_time.isSome then
    (some { msg := "server port cannot be reset after run()" }, s)
  else
    (none, { s with server_port := port })

/-- Dispatcher::setTestDuration (dispatcher.cc lines 310-316). -/
def setTestDuration (duration : Nat) (s : DState) :
    Option DispatcherError × DState :=
  if s.start_time.isSome then
    (some { msg := "test duration cannot be reset after run()" }, s)
  else
    (none, { s with test_duration := duration })

/-- Dispatcher::getServerAddress (dispatcher.cc lines 279-282), as a
const member function: the returned value paired with the (unchanged)
object state. -/
def getServerAddress (s : DState) : String × DState :=
  (s.server_address, s)

/-- Dispatcher::getServerPort (dispatcher.cc lines 292-295). -/
def getServerPort (s : DState) : Nat × DState :=
  (s.server_port, s)

/-- Dispatcher::getTestDuration (dispatcher.cc lines 305-308). -/
def getTestDuration (s : DState) : Nat × DState :=
  (s.test_duration, s)

/-- Dispatcher::getQueriesSent (dispatcher.cc lines 318-321). -/
def getQueriesSent (s : DState) : Nat × DState :=
  (s.queries_sent, s)

/-- Dispatcher::getQueriesCompleted (dispatcher.cc lines 323-326). -/
def getQueriesCompleted (s : DState) : Nat × DState :=
  (s.queries_completed, s)

/-- Dispatcher::getStartTime (dispatcher.cc lines 328-331). -/
def getStartTime (s : DState) : Option Nat × DState :=
  (s.start_time, s)

/-- Dispatcher::getEndTime (dispatcher.cc lines 333-336). -/
def getEndTime (s : DState) : Option Nat × DState :=
  (s.end_time, s)

/-! Helper lemmas about the list operations used by the dispatcher. -/

theorem eraseIdx_sublist_self {α : Type} : ∀ (l : List α) (i : Nat),
    List.Sublist (l.eraseIdx i) l
  | [], _ => List.Sublist.refl _
  | _ :: l, 0 => List.sublist_cons_self _ l
  | a :: l, i + 1 => List.Sublist.cons₂ a (eraseIdx_sublist_self l i)

theorem head?_drop_eq_get? {α : Type} : ∀ (l : List α) (m : Nat),
    (l.drop m).head? = l.get? m
  | [], m => by cases m <;> rfl
  | _ :: _, 0 => rfl
  | _ :: l, m + 1 => head?_drop_eq_get? l m

theorem findMatch_lt_length {q : Nat} : ∀ {l : List Slot} {m : Nat},
    findMatch q l = some m → m < l.length := by
  intro l
  induction l with
  | nil => intro m h; simp [findMatch] at h
  | cons sl rest ih =>
      intro m h
      by_cases hm : sl.matchResponse q
      · simp [findMatch, hm] at h
        simp only [List.length_cons]
        omega
      · simp [findMatch, hm] at h
        obtain ⟨m0, hm0, rfl⟩ := h
        have := ih hm0
        simp only [List.length_cons]
        omega

theorem findMatch_none_of_no_match {q : Nat} : ∀ {l : List Slot},
    (∀ sl ∈ l, sl.matchResponse q = false) → findMatch q l = none := by
  intro l
  induction l with
  | nil => intro _; rfl
  | cons sl rest ih =>
      intro h
      have h1 : sl.matchResponse q = false := h sl (by simp)
      have h2 : findMatch q rest = none := ih (fun x hx => h x (by simp [hx]))
      simp [findMatch, h1, h2]

theorem restartQuery_no_match {q : Nat} {p : Bool} {s : DState}
    (h : findMatch q s.outstanding = none) : restartQuery q p s = s := by
  simp [restartQuery, h]

theorem restartQuery_match_keep {q m : Nat} {p : Bool} {s : DState}
    (hk : s.keep_sending = true) (hm : findMatch q s.outstanding = some m) :
    restartQuery q p s =
      { s with
          queries_completed :=
            if p then s.queries_completed + 1 else s.queries_completed
          outstanding :=
            spliceSwappedArgs
              (s.outstanding.set m
                ((s.outstanding.getD m { qid := 0, timer := none }).start
                  s.qid s.query_timeout).1) m
          sent_log :=
            s.sent_log ++
              [((s.outstanding.getD m { qid := 0, timer := none }).start
                  s.qid s.query_timeout).2]
          queries_sent := s.queries_sent + 1
          qid := (s.qid + 1) % 65536 } := by
  simp [restartQuery, hm, hk]

theorem restartQuery_match_drain {q m : Nat} {p : Bool} {s : DState}
    (hk : s.keep_sending = false) (hm : findMatch q s.outstanding = some m) :
    restartQuery q p s =
      { s with
          queries_completed :=
            if p then s.queries_completed + 1 else s.queries_completed
          outstanding := s.outstanding.eraseIdx m
          stop_requested :=
            s.stop_requested || (s.outstanding.eraseIdx m).isEmpty } := by
  simp [restartQuery, hm, hk]

theorem sendLoop_length {tmo : Nat} : ∀ (l : List Slot) (q : Nat),
    (sendLoop tmo l q).1.length = l.length
  | [], _ => rfl
  | _ :: rest, q => by
      simp [sendLoop, sendLoop_length rest ((q + 1) % 65536)]

theorem sendLoop_replicate (tmo : Nat) : ∀ (n q : Nat), q < 65536 →
    sendLoop tmo (List.replicate n { qid := 0, timer := none }) q =
      ((List.range n).map (fun i => { qid := (q + i) % 65536, timer := some tmo }),
       (q + n) % 65536,
       (List.range n).map (fun i => (q + i) % 65536)) := by
  intro n
  induction n with
  | zero =>
      intro q hq
      simp [sendLoop, Nat.mod_eq_of_lt hq]
  | succ n ih =>
      intro q hq
      have hq1 : (q + 1) % 65536 < 65536 := Nat.mod_lt _ (by omega)
      have hrec := ih ((q + 1) % 65536) hq1
      rw [List.replicate_succ]
      simp only [sendLoop, hrec, Prod.mk.injEq, List.range_succ_eq_map,
        List.map_cons, List.map_map, List.cons.injEq]
      refine ⟨⟨?_, ?_⟩, ?_, ?_, ?_⟩
      · simp [Slot.start, Nat.mod_eq_of_lt hq]
      · refine List.map_congr_left ?_
        intro i _
        simp only [Function.comp_apply, Slot.mk.injEq, and_true]
        omega
      · omega
      · simp [Slot.start, Nat.mod_eq_of_lt hq]
      · refine List.map_congr_left ?_
        intro i _
        simp only [Function.comp_apply]
        omega

/-! Claim theorems. -/

/-- A concrete dispatcher state used to exercise the restart path: sending
enabled, send counter at 100, two outstanding slots with identifiers 0 and
1, both timers armed for 5. -/
def exTwoSlots : DState :=
  { initState with
      qid := 100
      query_timeout := 7
      outstanding :=
        [{ qid := 0, timer := some 5 }, { qid := 1, timer := some 5 }] }

/-- C1: the claim says that a restart(id, present) while sending is enabled
moves the matched slot to the back of the window and leaves the relative
order of the other slots unchanged.  The code (dispatcher.cc line 243) calls
splice with its element and position arguments swapped, passing end() as the
element to move, so the matched slot does not go to the back: restarting the
front slot (identifier 0, reassigned identifier 100) of a two-slot window
leaves it at the front, and the last slot is still the untouched one with
identifier 1.  This contradicts both the claim and the comment directly
above the call (Move this context to the end of the queue). -/
theorem restart_leaves_matched_slot_at_front :
    (restartQuery 0 true exTwoSlots).outstanding =
      [{ qid := 100, timer := some 7 }, { qid := 1, timer := some 5 }] ∧
    ((restartQuery 0 true exTwoSlots).outstanding.getLast?.map
        fun sl => sl.qid) ≠ some 100 := by
  decide

/-- C2: the claim says a malformed (too short) response payload is dropped
by the response callback without propagating an exception.  The code parses
the header with isc::dns::Message::parseHeader and leaves the resulting
exception uncaught (the TODO at dispatcher.cc line 217), so a 2-byte payload
makes the exception escape the callback instead of being dropped. -/
theorem responseCallback_propagates_parse_error :
    responseCallback [0, 1] initState =
      Except.error ParseError.headerTooShort := by
  rfl

/-- C3: each configuration setter (server address, server port, test
duration) throws a DispatcherError exactly when the start time has been set,
leaves the whole state unchanged when it throws, and otherwise updates
exactly its own configuration field. -/
theorem setters_throw_iff_started (s : DState) (a : String) (p d : Nat) :
    ((setServerAddress a s).1.isSome = s.start_time.isSome ∧
      (s.start_time.isSome = true → (setServerAddress a s).2 = s) ∧
      (s.start_time.isSome = false →
        (setServerAddress a s).1 = none ∧
        (setServerAddress a s).2 = { s with server_address := a })) ∧
    ((setServerPort p s).1.isSome = s.start_time.isSome ∧
      (s.start_time.isSome = true → (setServerPort p s).2 = s) ∧
      (s.start_time.isSome = false →
        (setServerPort p s).1 = none ∧
        (setServerPort p s).2 = { s with server_port := p })) ∧
    ((setTestDuration d s).1.isSome = s.start_time.isSome ∧
      (s.start_time.isSome = true → (setTestDuration d s).2 = s) ∧
      (s.start_time.isSome = false →
        (setTestDuration d s).1 = none ∧
        (setTestDuration d s).2 = { s with test_duration := d })) := by
  by_cases h : s.start_time.isSome <;>
    simp [setServerAddress, setServerPort, setTestDuration, h]

/-- A dispatcher state in which the run has started (start time set). -/
def exStarted : DState := { initState with start_time := some 1 }

/-- Witness for the setter theorem: after the start time is set, setting the
server address reports an error and leaves the state unchanged; before the
run, setting the test duration succeeds and updates only that field. -/
theorem setters_throw_iff_started_witness :
    (setServerAddress "203.0.113.1" exStarted).2 = exStarted ∧
    (setServerAddress "203.0.113.1" exStarted).1.isSome = true ∧
    (setTestDuration 60 initState).1 = none ∧
    (setTestDuration 60 initState).2 = { initState with test_duration := 60 } :=
  ⟨(setters_throw_iff_started exStarted "203.0.113.1" 1 2).1.2.1 rfl,
   by rw [(setters_throw_iff_started exStarted "203.0.113.1" 1 2).1.1]; rfl,
   ((setters_throw_iff_started initState "203.0.113.1" 1 60).2.2.2.2 rfl).1,
   ((setters_throw_iff_started initState "203.0.113.1" 1 60).2.2.2.2 rfl).2⟩

/-- C5: a restart event whose identifier matches no outstanding slot leaves
the whole dispatcher state unchanged: counters, window contents and order,
every slot identifier and timer, and the substrate observables. -/
theorem restart_unmatched_is_noop (s : DState) (q : Nat) (p : Bool)
    (h : ∀ sl ∈ s.outstanding, sl.matchResponse q = false) :
    restartQuery q p s = s :=
  restartQuery_no_match (findMatch_none_of_no_match h)

/-- A dispatcher state with a single outstanding slot with identifier 3. -/
def exOneSlot : DState :=
  { initState with outstanding := [{ qid := 3, timer := some 5 }] }

/-- Witness for the unmatched-restart theorem: identifier 9 matches no slot
of the one-slot window, and the restart leaves the state untouched. -/
theorem restart_unmatched_is_noop_witness :
    (∀ sl ∈ exOneSlot.outstanding, sl.matchResponse 9 = false) ∧
    restartQuery 9 true exOneSlot = exOneSlot :=
  ⟨by decide, restart_unmatched_is_noop exOneSlot 9 true (by decide)⟩

/-- C10: every read-only accessor returns exactly the stored field it
exposes and hands back the dispatcher state unchanged, in every state. -/
theorem getters_are_pure_reads (s : DState) :
    getServerAddress s = (s.server_address, s) ∧
    getServerPort s = (s.server_port, s) ∧
    getTestDuration s = (s.test_duration, s) ∧
    getQueriesSent s = (s.queries_sent, s) ∧
    getQueriesCompleted s = (s.queries_completed, s) ∧
    getStartTime s = (s.start_time, s) ∧
    getEndTime s = (s.end_time, s) :=
  ⟨rfl, rfl, rfl, rfl, rfl, rfl, rfl⟩

theorem length_spliceSwappedArgs (l : List Slot) (m : Nat) :
    (spliceSwappedArgs l m).length = l.length := by
  unfold spliceSwappedArgs
  rw [List.length_append, List.length_drop, List.length_take]
  omega

theorem stepAll_cons (e : DEvent) (evs : List DEvent) (s : DState) :
    stepAll (e :: evs) s = stepAll evs (step e s) := rfl

theorem restart_drain_frozen (q : Nat) (p : Bool) (s : DState)
    (hk : s.keep_sending = false) :
    (restartQuery q p s).keep_sending = false ∧
    (restartQuery q p s).queries_sent = s.queries_sent ∧
    List.Sublist (restartQuery q p s).outstanding s.outstanding := by
  cases hm : findMatch q s.outstanding with
  | none =>
      rw [restartQuery_no_match hm]
      exact ⟨hk, rfl, List.Sublist.refl _⟩
  | some m =>
      rw [restartQuery_match_drain hk hm]
      exact ⟨hk, rfl, eraseIdx_sublist_self _ _⟩

theorem step_drain_frozen (e : DEvent) (s : DState)
    (hk : s.keep_sending = false) :
    (step e s).keep_sending = false ∧
    (step e s).queries_sent = s.queries_sent ∧
    List.Sublist (step e s).outstanding s.outstanding := by
  cases e with
  | response data =>
      by_cases hlen : data.length < 12
      · have hstep : step (DEvent.response data) s = s := by
          simp only [step, responseCallback, if_pos hlen]
        rw [hstep]
        exact ⟨hk, rfl, List.Sublist.refl _⟩
      · have hstep : step (DEvent.response data) s =
            restartQuery (data.getD 0 0 * 256 + data.getD 1 0) true s := by
          simp only [step, responseCallback, if_neg hlen]
        rw [hstep]
        exact restart_drain_frozen _ true s hk
  | timeout q => exact restart_drain_frozen q false s hk
  | session => exact ⟨rfl, rfl, List.Sublist.refl _⟩

theorem stepAll_drain_frozen (evs : List DEvent) : ∀ (s : DState),
    s.keep_sending = false →
    (stepAll evs s).keep_sending = false ∧
    (stepAll evs s).queries_sent = s.queries_sent ∧
    List.Sublist (stepAll evs s).outstanding s.outstanding := by
  induction evs with
  | nil => intro s hk; exact ⟨hk, rfl, List.Sublist.refl _⟩
  | cons e evs ih =>
      intro s hk
      obtain ⟨h1, h2, h3⟩ := step_drain_frozen e s hk
      obtain ⟨g1, g2, g3⟩ := ih (step e s) h1
      rw [stepAll_cons]
      exact ⟨g1, g2.trans h2, g3.trans h3⟩

/-- C4: once the session timer callback has fired (sending disabled), no
later restart with any identifier and any response-present flag can increase
the sent counter, and every slot that remains outstanding after any further
sequence of events is one of the original slots with its identifier and
timer untouched (the window only shrinks: it stays a sublist of the window
at drain time, so no slot is ever assigned a new identifier). -/
theorem no_send_after_session_timer (s : DState) (q : Nat) (p : Bool)
    (evs : List DEvent) :
    (restartQuery q p (sessionTimerCallback s)).queries_sent =
      s.queries_sent ∧
    List.Sublist (restartQuery q p (sessionTimerCallback s)).outstanding
      s.outstanding ∧
    (stepAll evs (sessionTimerCallback s)).queries_sent = s.queries_sent ∧
    List.Sublist (stepAll evs (sessionTimerCallback s)).outstanding
      s.outstanding := by
  obtain ⟨_, h2, h3⟩ := restart_drain_frozen q p (sessionTimerCallback s) rfl
  obtain ⟨_, g2, g3⟩ := stepAll_drain_frozen evs (sessionTimerCallback s) rfl
  exact ⟨h2, h3, g2, g3⟩

/-- C6: while draining (sending disabled, stop not yet requested), a restart
that matches the slot at position m removes exactly that slot from the
window, and the event loop is asked to stop precisely when this removal
empties the window; furthermore the outer run() records the end time once
the loop returns. -/
theorem drain_removes_slot_stops_on_empty (s : DState) (q m : Nat) (p : Bool)
    (hk : s.keep_sending = false) (hm : findMatch q s.outstanding = some m)
    (hs : s.stop_requested = false) :
    (restartQuery q p s).outstanding = s.outstanding.eraseIdx m ∧
    ((restartQuery q p s).stop_requested = true ↔
      (restartQuery q p s).outstanding = []) ∧
    (∀ t te evs s0, (dispatcherRun t te evs s0).end_time = some te) := by
  rw [restartQuery_match_drain hk hm]
  refine ⟨rfl, ?_, fun t te evs s0 => rfl⟩
  simp only [hs, Bool.false_or]
  generalize s.outstanding.eraseIdx m = l
  cases l <;> simp

/-- A one-slot draining state: sending disabled, a single outstanding slot
with identifier 4, stop not yet requested. -/
def exDrainOne : DState :=
  { initState with
      keep_sending := false
      outstanding := [{ qid := 4, timer := some 5 }] }

/-- Witness for the draining theorem: completing the only outstanding slot
of a draining window removes it and requests the loop stop, and a run with
an empty event list records end time 9. -/
theorem drain_removes_slot_stops_on_empty_witness :
    exDrainOne.keep_sending = false ∧
    findMatch 4 exDrainOne.outstanding = some 0 ∧
    exDrainOne.stop_requested = false ∧
    (restartQuery 4 true exDrainOne).outstanding =
      exDrainOne.outstanding.eraseIdx 0 ∧
    ((restartQuery 4 true exDrainOne).stop_requested = true ↔
      (restartQuery 4 true exDrainOne).outstanding = []) ∧
    (dispatcherRun 0 9 [] initState).end_time = some 9 :=
  ⟨rfl, rfl, rfl,
   (drain_removes_slot_stops_on_empty exDrainOne 4 0 true rfl rfl rfl).1,
   (drain_removes_slot_stops_on_empty exDrainOne 4 0 true rfl rfl rfl).2.1,
   (drain_removes_slot_stops_on_empty exDrainOne 4 0 true rfl rfl rfl).2.2
     0 9 [] initState⟩

theorem head?_rotation {l : List Slot} {m : Nat} (hm : m < l.length)
    (sl : Slot) :
    (spliceSwappedArgs (l.set m sl) m).head? = some sl := by
  have hget : (l.set m sl).get? m = some sl := by
    rw [List.get?_eq_getElem?]
    exact List.getElem?_set_eq_of_lt sl hm
  have hd : ((l.set m sl).drop m).head? = some sl := by
    rw [head?_drop_eq_get?]
    exact hget
  unfold spliceSwappedArgs
  cases hdrop : (l.set m sl).drop m with
  | nil => rw [hdrop] at hd; simp at hd
  | cons a t =>
      rw [hdrop] at hd
      simp only [List.head?_cons, Option.some.injEq] at hd
      simp [hd]

/-- C8: on a matching restart while sending is enabled, the identifier
assigned to the matched slot (which the splice leaves at the front of the
window) is the current value of the 16-bit send counter, and the counter is
then incremented with silent wrap-around at 65536. -/
theorem restart_assigns_send_counter (s : DState) (q m : Nat) (p : Bool)
    (hk : s.keep_sending = true) (hm : findMatch q s.outstanding = some m) :
    ((restartQuery q p s).outstanding.head?.map fun sl => sl.qid) =
      some s.qid ∧
    (restartQuery q p s).qid = (s.qid + 1) % 65536 := by
  have hlt : m < s.outstanding.length := findMatch_lt_length hm
  rw [restartQuery_match_keep hk hm]
  refine ⟨?_, rfl⟩
  rw [head?_rotation hlt]
  rfl

/-- A running state whose send counter sits at the top of the identifier
space, with one outstanding slot with identifier 7. -/
def exWrap : DState :=
  { initState with
      qid := 65535
      outstanding := [{ qid := 7, timer := some 5 }] }

/-- Witness for the send-counter theorem: restarting the slot with
identifier 7 while the counter is 65535 assigns 65535 to the slot and wraps
the counter to 0. -/
theorem restart_assigns_send_counter_witness :
    exWrap.keep_sending = true ∧
    findMatch 7 exWrap.outstanding = some 0 ∧
    ((restartQuery 7 true exWrap).outstanding.head?.map fun sl => sl.qid) =
      some 65535 ∧
    (restartQuery 7 true exWrap).qid = 0 :=
  ⟨rfl, rfl,
   (restart_assigns_send_counter exWrap 7 0 true rfl rfl).1,
   ((restart_assigns_send_counter exWrap 7 0 true rfl rfl).2).trans
     (by decide)⟩

theorem runImpl_qid_fresh (s : DState) (t : Nat) (hout : s.outstanding = [])
    (hqid : s.qid = 0) : (runImpl t s).qid = s.window % 65536 := by
  have hrep := sendLoop_replicate s.query_timeout s.window 0
    (by omega)
  simp only [runImpl, hout, hqid, List.nil_append, hrep]
  simp

/-- C7 (amended): run() from a fresh dispatcher (empty window, send counter
0) creates exactly window_ slots, sends exactly one request per slot with
identifiers i mod 65536 for i = 0 .. window_ - 1, increments the sent
counter by exactly window_, and leaves the send counter at window_ mod
65536; whenever window_ does not exceed the identifier space the sent
identifiers are exactly 0 .. window_ - 1 in strictly increasing order. -/
theorem run_initial_burst (s : DState) (t : Nat)
    (hout : s.outstanding = []) (hqid : s.qid = 0) :
    (runImpl t s).outstanding.length = s.window ∧
    (runImpl t s).queries_sent = s.queries_sent + s.window ∧
    (runImpl t s).sent_log =
      s.sent_log ++ (List.range s.window).map (fun i => i % 65536) ∧
    (runImpl t s).outstanding.map (fun sl => sl.qid) =
      (List.range s.window).map (fun i => i % 65536) ∧
    (runImpl t s).qid = s.window % 65536 ∧
    (s.window ≤ 65536 →
      (List.range s.window).map (fun i => i % 65536) = List.range s.window ∧
      List.Pairwise (fun a b => a < b) (List.range s.window)) := by
  have hrep := sendLoop_replicate s.query_timeout s.window 0
    (by omega)
  simp only [runImpl, hout, hqid, List.nil_append, hrep]
  refine ⟨?_, ?_, ?_, ?_, ?_, ?_⟩
  · simp
  · simp
  · simp
  · simp [List.map_map, Function.comp]
  · simp
  · intro hw
    have hid : ∀ i ∈ List.range s.window, i % 65536 = i := by
      intro i hi
      exact Nat.mod_eq_of_lt (lt_of_lt_of_le (List.mem_range.mp hi) hw)
    refine ⟨?_, List.pairwise_lt_range _⟩
    rw [List.map_congr_left hid]
    exact List.map_id _

/-- A fresh dispatcher configured with a window of three slots. -/
def exFresh : DState := { initState with window := 3 }

/-- Witness for the initial-burst theorem at window three. -/
theorem run_initial_burst_witness :
    exFresh.outstanding = [] ∧ exFresh.qid = 0 ∧
    (runImpl 11 exFresh).queries_sent =
      exFresh.queries_sent + exFresh.window ∧
    (runImpl 11 exFresh).qid = exFresh.window % 65536 :=
  ⟨rfl, rfl,
   (run_initial_burst exFresh 11 rfl rfl).2.1,
   (run_initial_burst exFresh 11 rfl rfl).2.2.2.2.1⟩

/-- A fresh dispatcher configured with a window as large as the whole
16-bit identifier space. -/
def exHugeWindow : DState := { initState with window := 65536 }

/-- C7 counterexample: with the window configured to 65536 (the size of the
identifier space), run() from a fresh dispatcher leaves the wrapping 16-bit
send counter at 0, not at the window size as the claim states. -/
theorem run_counter_wraps_at_full_width :
    exHugeWindow.outstanding = [] ∧ exHugeWindow.qid = 0 ∧
    exHugeWindow.window = 65536 ∧
    (runImpl 0 exHugeWindow).qid ≠ exHugeWindow.window := by
  refine ⟨rfl, rfl, rfl, ?_⟩
  rw [runImpl_qid_fresh exHugeWindow 0 rfl rfl,
    show exHugeWindow.window = 65536 from rfl]
  decide

/-- States reachable from a freshly constructed dispatcher by any sequence
of run-initialization, response, per-exchange-timeout, and session-timeout
events. -/
inductive Reachable : DState → Prop where
  | init : Reachable initState
  | run (t : Nat) {s : DState} : Reachable s → Reachable (runImpl t s)
  | ev (e : DEvent) {s : DState} : Reachable s → Reachable (step e s)

theorem restart_counter_inv {s : DState} (q : Nat) (p : Bool)
    (h : s.queries_completed + s.outstanding.length ≤ s.queries_sent) :
    (restartQuery q p s).queries_completed +
      (restartQuery q p s).outstanding.length ≤
      (restartQuery q p s).queries_sent := by
  cases hm : findMatch q s.outstanding with
  | none => rw [restartQuery_no_match hm]; exact h
  | some m =>
      have hlt : m < s.outstanding.length := findMatch_lt_length hm
      cases hk : s.keep_sending with
      | true =>
          rw [restartQuery_match_keep hk hm]
          dsimp only
          rw [length_spliceSwappedArgs, List.length_set]
          cases p <;> simp <;> omega
      | false =>
          rw [restartQuery_match_drain hk hm]
          dsimp only
          have hlen := List.length_eraseIdx_add_one hlt
          cases p <;> simp <;> omega

theorem step_counter_inv (e : DEvent) {s : DState}
    (h : s.queries_completed + s.outstanding.length ≤ s.queries_sent) :
    (step e s).queries_completed + (step e s).outstanding.length ≤
      (step e s).queries_sent := by
  cases e with
  | response data =>
      by_cases hlen : data.length < 12
      · have hstep : step (DEvent.response data) s = s := by
          simp only [step, responseCallback, if_pos hlen]
        rw [hstep]; exact h
      · have hstep : step (DEvent.response data) s =
            restartQuery (data.getD 0 0 * 256 + data.getD 1 0) true s := by
          simp only [step, responseCallback, if_neg hlen]
        rw [hstep]
        exact restart_counter_inv _ true h
  | timeout q => exact restart_counter_inv q false h
  | session => exact h

theorem run_counter_inv (t : Nat) {s : DState}
    (h : s.queries_completed + s.outstanding.length ≤ s.queries_sent) :
    (runImpl t s).queries_completed + (runImpl t s).outstanding.length ≤
      (runImpl t s).queries_sent := by
  simp only [runImpl, sendLoop_length, List.length_append,
    List.length_replicate]
  omega

/-- C9: in every state reachable by any sequence of run-initialization,
response, per-exchange-timeout, and session-timeout events, the completed
counter never exceeds the sent counter. -/
theorem reachable_completed_le_sent {s : DState} (h : Reachable s) :
    s.queries_completed ≤ s.queries_sent := by
  have key : s.queries_completed + s.outstanding.length ≤ s.queries_sent := by
    induction h with
    | init => exact Nat.le_refl 0
    | run t _ ih => exact run_counter_inv t ih
    | ev e _ ih => exact step_counter_inv e ih
  omega

/-- Witness for the counter invariant: the freshly constructed dispatcher is
reachable and satisfies the bound. -/
theorem reachable_completed_le_sent_witness :
    Reachable initState ∧
    initState.queries_completed ≤ initState.queries_sent :=
  ⟨Reachable.init, reachable_completed_le_sent Reachable.init⟩
